import Mathlib

/-!
Verification of `scripts/generate-stats.js`, the metrics-aggregation script of
the organization-profile repository.

The script is embedded shallowly:

* JSON integers are modelled by `Nat` (all counts in play are non-negative);
  `pushed_at` ISO-8601 timestamp strings are modelled by their parsed numeric
  time value (`new Date(s).getTime()`), so comparing two timestamps is `Nat`
  comparison; a missing/`null` field of a JSON object is `Option.none`.
* `fetchJson` either throws (network failure, non-success status, JSON parse
  failure) or yields a parsed body; this is `Except String body`, with the
  `String` carrying `error.message`.
* The remote API is a parameter: the organization-metadata response is an
  `Except String Org`, and the repository-listing endpoint is a function from
  the page number to the response for that page.
* The `while (true)` pagination loop is given explicit fuel; `none` models the
  (accepted, open-ended) case of an API that keeps answering full pages
  forever, and every terminating run of the loop is independent of any
  sufficiently large fuel.
* `console.warn` / `console.log` / `console.error` output is collected in a
  list of diagnostic strings; `process.exit` is an explicit exit code.
* The file system is an explicit state: a set of directories and a map from
  paths (segment lists) to written JSON documents.
-/

namespace GenStats

/-- The per-repository fields the script consumes
(`name`, `pushed_at`, `stargazers_count`, `forks_count`, `html_url`).
`pushed_at` is the parsed numeric push time, `none` when null/absent. -/
structure Repo where
  name : String
  pushed_at : Option Nat
  stargazers_count : Option Nat
  forks_count : Option Nat
  html_url : String
  deriving DecidableEq, Repr

/-- The organization-metadata fields the script consumes; each is `none`
when the JSON object omits the field (or carries `null`). -/
structure Org where
  public_repos : Option Nat
  total_private_repos : Option Nat
  followers : Option Nat
  public_members : Option Nat
  deriving DecidableEq, Repr

/-- The `latestPushedRepository` sub-object built on the success path. -/
structure LatestRepo where
  name : String
  pushedAt : Nat
  htmlUrl : String
  deriving DecidableEq, Repr

/-- The value returned by `fetchOrgMetrics`.  On the success path the JS
object has no `error` key, modelled by `error = none`; the catch path sets
`error` to the message of the caught error. -/
structure OrgMetrics where
  organization : String
  publicRepos : Nat
  privateRepos : Nat
  followers : Nat
  members : Nat
  totalStars : Nat
  totalForks : Nat
  latestPushedRepository : Option LatestRepo
  error : Option String
  deriving DecidableEq, Repr

/-- `GITHUB_ORG = process.env.GITHUB_ORG || 'abstract-data'`: the `||`
fallback fires on an undefined variable and on the (falsy) empty string. -/
def githubOrg (envOrg : Option String) : String :=
  match envOrg with
  | none => "abstract-data"
  | some s => if s.isEmpty then "abstract-data" else s

/-- The `HEADERS` object: the `Accept` header always, and the spread
`...(GITHUB_TOKEN ? { Authorization: ... } : {})` adds an `Authorization`
entry exactly when the token is truthy (present and non-empty). -/
def HEADERS (token : Option String) : List (String × String) :=
  match token with
  | none => [("Accept", "application/vnd.github+json")]
  | some t =>
    if t.isEmpty then [("Accept", "application/vnd.github+json")]
    else [("Accept", "application/vnd.github+json"), ("Authorization", "Bearer " ++ t)]

/-- An outbound HTTP request as issued by `fetchJson`:
`fetch(url, { headers: HEADERS })`. -/
structure Request where
  url : String
  headers : List (String × String)
  deriving DecidableEq, Repr

/-- The request `fetchJson url` sends. -/
def fetchRequest (token : Option String) (url : String) : Request :=
  { url := url, headers := HEADERS token }

/-- The parsed JSON body of one repository-listing page: either an array of
repository objects, or any other JSON value — the two cases the loop's
`Array.isArray(data)` test distinguishes. -/
inductive RepoPage where
  | arr (repos : List Repo)
  | notArray
  deriving DecidableEq, Repr

/-- `perPage = 100`. -/
def perPage : Nat := 100

/-- The body of `listOrgRepos`'s `while (true)` loop, with explicit fuel and
an explicit request counter.  Each iteration awaits `fetchJson` for the
current page (a thrown error propagates), breaks on a non-array or empty
body, pushes the page's rows, breaks after a short page, and otherwise
continues with the next page.  Returns the accumulated repositories together
with the number of page requests issued; `none` when the fuel runs out. -/
def listOrgReposLoop (fetchPage : Nat → Except String RepoPage) :
    Nat → Nat → List Repo → Nat → Option (Except String (List Repo × Nat))
  | 0, _, _, _ => none
  | fuel + 1, page, repos, requests =>
    match fetchPage page with
    | .error e => some (.error e)
    | .ok .notArray => some (.ok (repos, requests + 1))
    | .ok (.arr data) =>
      if data.length = 0 then some (.ok (repos, requests + 1))
      else if data.length < perPage then some (.ok (repos ++ data, requests + 1))
      else listOrgReposLoop fetchPage fuel (page + 1) (repos ++ data) (requests + 1)

/-- `listOrgRepos()`: run the pagination loop from page 1 with no repositories
accumulated and no requests issued yet. -/
def listOrgRepos (fetchPage : Nat → Except String RepoPage) (fuel : Nat) :
    Option (Except String (List Repo × Nat)) :=
  listOrgReposLoop fetchPage fuel 1 [] 0

/-- The numeric push time used by the sort comparator
`new Date(b.pushed_at) - new Date(a.pushed_at)` (only ever applied to
repositories that passed the `repo.pushed_at` filter, so the default is
never consulted there). -/
def tsOf (r : Repo) : Nat := r.pushed_at.getD 0

/-- The ordering the comparator induces: `a` may precede `b` exactly when
`a`'s push time is at least `b`'s (descending by push time). -/
def pushDesc : Repo → Repo → Prop := fun a b => tsOf b ≤ tsOf a

instance : DecidableRel pushDesc := fun a b => Nat.decLe (tsOf b) (tsOf a)

instance : IsTotal Repo pushDesc := ⟨fun a b => Nat.le_total (tsOf b) (tsOf a)⟩

instance : IsTrans Repo pushDesc := ⟨fun _ _ _ hab hbc => le_trans hbc hab⟩

/-- `repos.filter(repo => repo.pushed_at).sort((a, b) => new Date(b.pushed_at)
- new Date(a.pushed_at))[0]`: keep the repositories whose push timestamp is
non-null, sort them descending by push time with a stable sort
(`Array.prototype.sort` is stable; `insertionSort` is its stable model), and
take the first element, if any. -/
def latestPushedRepo (repos : List Repo) : Option Repo :=
  (List.insertionSort pushDesc (repos.filter fun r => r.pushed_at.isSome)).head?

/-- The body of the `try` block of `fetchOrgMetrics`, once the organization
metadata and the full repository list have both resolved: the pure
construction of the success-path metrics object.  `??` is the nullish
fallback (`Option.getD`); `|| 0` on a numeric field agrees with `getD 0`. -/
def computeMetrics (orgName : String) (org : Org) (repos : List Repo) : OrgMetrics :=
  let latestRepo := latestPushedRepo repos
  let totalStars := repos.foldl (fun sum repo => sum + repo.stargazers_count.getD 0) 0
  let totalForks := repos.foldl (fun sum repo => sum + repo.forks_count.getD 0) 0
  { organization := orgName
    publicRepos := org.public_repos.getD repos.length
    privateRepos := org.total_private_repos.getD 0
    followers := org.followers.getD 0
    members := org.public_members.getD 0
    totalStars := totalStars
    totalForks := totalForks
    latestPushedRepository := latestRepo.map fun r =>
      { name := r.name, pushedAt := tsOf r, htmlUrl := r.html_url }
    error := none }

/-- The value built by the `catch` block: every numeric field zero, no latest
repository, and the caught error's message in the `error` field. -/
def degradedMetrics (orgName : String) (msg : String) : OrgMetrics :=
  { organization := orgName
    publicRepos := 0
    privateRepos := 0
    followers := 0
    members := 0
    totalStars := 0
    totalForks := 0
    latestPushedRepository := none
    error := some msg }

/-- The `console.warn` line emitted by the `catch` block. -/
def warnMsg (msg : String) : String :=
  "[WARN] Unable to fetch GitHub metrics: " ++ msg

/-- `fetchOrgMetrics()`: await the organization-metadata request and the
pagination loop (`Promise.all`), build the success metrics from both, and
convert any thrown error into the degraded value plus a warning diagnostic.
When both concurrent operations fail, `Promise.all` rejects with whichever
settled first; the model reports the organization-metadata error in that
case (no claim depends on the choice).  Returns the metrics together with
the warning lines emitted; `none` only when the pagination loop never
terminates within the given fuel. -/
def fetchOrgMetrics (orgName : String) (orgResp : Except String Org)
    (fetchPage : Nat → Except String RepoPage) (fuel : Nat) :
    Option (OrgMetrics × List String) :=
  match listOrgRepos fetchPage fuel with
  | none => none
  | some reposResult =>
    match orgResp, reposResult with
    | .error e, _ => some (degradedMetrics orgName e, [warnMsg e])
    | .ok _, .error e => some (degradedMetrics orgName e, [warnMsg e])
    | .ok org, .ok (repos, _) => some (computeMetrics orgName org repos, [])

/-- A JSON value, as far as the written document is concerned.  An object
keeps its fields in insertion order, matching `JSON.stringify` of an object
literal.  Numbers are the non-negative integers the script produces;
`pushed_at` timestamps keep their numeric model. -/
inductive JVal where
  | jnull
  | jstr (s : String)
  | jnum (n : Nat)
  | jarr (xs : List JVal)
  | jobj (fields : List (String × JVal))

/-- The static `systems` array of the payload. -/
def systemsJson : JVal :=
  .jarr [
    .jobj [("name", .jstr "Quantum Core Labs"), ("status", .jstr "skunkworks"),
           ("emphasis", .jstr "#E7AE59")],
    .jobj [("name", .jstr "Campaign Intelligence Grid"), ("status", .jstr "operational"),
           ("emphasis", .jstr "#AC2D21")]]

/-- The `payload` object literal built in `main` from the metrics value and
the current time (`new Date().toISOString()` is the parameter `now`). -/
def mainPayload (now orgName : String) (m : OrgMetrics) : JVal :=
  .jobj [
    ("generatedAt", .jstr now),
    ("systems", systemsJson),
    ("metrics", .jobj [
      ("repos", .jnum (m.publicRepos + m.privateRepos)),
      ("followers", .jnum m.followers),
      ("members", .jnum m.members),
      ("totalStars", .jnum m.totalStars),
      ("totalForks", .jnum m.totalForks),
      ("latestCommit", match m.latestPushedRepository with
        | some l => .jnum l.pushedAt
        | none => .jnull),
      ("latestRepository", match m.latestPushedRepository with
        | some l => .jstr l.name
        | none => .jnull)]),
    ("sources", .jobj [
      ("github", .jstr ("https://github.com/" ++ orgName)),
      ("latestRepository", match m.latestPushedRepository with
        | some l => .jstr l.htmlUrl
        | none => .jnull)])]

/-- The keys of a JSON object (in order); `[]` on non-objects. -/
def topKeys : JVal → List String
  | .jobj fields => fields.map Prod.fst
  | _ => []

/-- Field lookup in a JSON object. -/
def lookupKey (j : JVal) (k : String) : Option JVal :=
  match j with
  | .jobj fields => fields.lookup k
  | _ => none

/-- A field of the payload's `metrics` object. -/
def metricsField (p : JVal) (k : String) : Option JVal :=
  (lookupKey p "metrics").bind fun m => lookupKey m k

/-- A field of the payload's `sources` object. -/
def sourcesField (p : JVal) (k : String) : Option JVal :=
  (lookupKey p "sources").bind fun s => lookupKey s k

mutual

/-- Every object key occurring anywhere in a JSON value. -/
def allKeys : JVal → List String
  | .jarr xs => allKeysArr xs
  | .jobj fields => allKeysFields fields
  | _ => []

/-- Every object key occurring in a list of JSON values. -/
def allKeysArr : List JVal → List String
  | [] => []
  | x :: xs => allKeys x ++ allKeysArr xs

/-- Every key of an object's field list, and every key below its values. -/
def allKeysFields : List (String × JVal) → List String
  | [] => []
  | (k, v) :: fs => k :: (allKeys v ++ allKeysFields fs)

end

/-- `OUTPUT_DIR = path.resolve(__dirname, '..', 'profile')`: paths are
segment lists, and resolving `..` against the script's directory drops its
last segment.  The process working directory plays no part. -/
def OUTPUT_DIR (dirname : List String) : List String :=
  dirname.dropLast ++ ["profile"]

/-- `OUTPUT_FILE = path.join(OUTPUT_DIR, 'stats.json')`. -/
def OUTPUT_FILE (dirname : List String) : List String :=
  OUTPUT_DIR dirname ++ ["stats.json"]

/-- The path `main` writes to, as a function of the full process state the
specification mentions: the working directory `cwd` and the script directory
`dirname`.  The source computes it with `path.resolve(__dirname, ...)`, so
it depends on `dirname` only. -/
def writtenPath (cwd dirname : List String) : List String :=
  OUTPUT_FILE dirname

/-- The file system as the script sees it: the set of existing directories
and the written files with their JSON contents. -/
structure FS where
  dirs : List (List String)
  files : List (List String × JVal)

/-- `fs.writeFileSync`: record the document at the path, replacing any
previous file there (full overwrite, no append or merge). -/
def writeFile (fs : FS) (p : List String) (v : JVal) : FS :=
  { fs with files := (p, v) :: fs.files.filter fun kv => kv.1 ≠ p }

/-- Lines 116-120 of the script: `mkdirSync(OUTPUT_DIR)` guarded by
`existsSync`, then `writeFileSync(OUTPUT_FILE, ...)`. -/
def writeOut (fs : FS) (dirname : List String) (payload : JVal) : FS :=
  let fs1 := if OUTPUT_DIR dirname ∈ fs.dirs then fs
             else { fs with dirs := OUTPUT_DIR dirname :: fs.dirs }
  writeFile fs1 (OUTPUT_FILE dirname) payload

/-- The success log line of `main`. -/
def successLog (dirname : List String) : String :=
  "Generated stats payload -> " ++ String.intercalate "/" (OUTPUT_FILE dirname)

/-- The `console.error` line of the top-level catch handler. -/
def fatalLog (msg : String) : String :=
  "[ERROR] generate-stats failed: " ++ msg

/-- One full run: `main()` followed by the top-level
`.catch(error => ... process.exit(1))` handler.  `fsFault` is the error a
filesystem step (mkdir or write) throws, `none` when the filesystem
cooperates.  The result is the final file system, the process exit code
(0 for a run that completes `main`, 1 from the catch handler) and the
diagnostics emitted, in order.  `none` only when the pagination loop never
terminates within the given fuel. -/
def mainRun (now orgName : String) (orgResp : Except String Org)
    (fetchPage : Nat → Except String RepoPage) (fuel : Nat)
    (fs : FS) (dirname : List String) (fsFault : Option String) :
    Option (FS × Nat × List String) :=
  match fetchOrgMetrics orgName orgResp fetchPage fuel with
  | none => none
  | some (m, warns) =>
    let payload := mainPayload now orgName m
    match fsFault with
    | some e => some (fs, 1, warns ++ [fatalLog e])
    | none => some (writeOut fs dirname payload, 0, warns ++ [successLog dirname])

/-! ## Concrete fixtures used by the claim theorems -/

/-- A scenario repository with no push timestamp and no counts. -/
def mkRepo (n : Nat) : Repo :=
  { name := "r" ++ toString n
    pushed_at := none
    stargazers_count := none
    forks_count := none
    html_url := "" }

/-- A mock repository-listing page of the given size. -/
def pageRepos (len : Nat) : List Repo :=
  (List.range len).map mkRepo

/-- A mock repository-listing API returning pages of sizes 100, 100 and 37. -/
def apiPages3 : Nat → Except String RepoPage
  | 1 => .ok (.arr (pageRepos 100))
  | 2 => .ok (.arr (pageRepos 100))
  | 3 => .ok (.arr (pageRepos 37))
  | _ => .error "unexpected page request"

/-- A mock repository-listing API whose first page is the empty array. -/
def apiEmptyFirst : Nat → Except String RepoPage
  | 1 => .ok (.arr [])
  | _ => .error "unexpected page request"

/-- An organization-metadata object with every field absent. -/
def orgEmpty : Org :=
  { public_repos := none, total_private_repos := none
    followers := none, public_members := none }

/-- A repository with a null push timestamp. -/
def rNoPush : Repo :=
  { name := "never-pushed", pushed_at := none
    stargazers_count := some 3, forks_count := some 1, html_url := "u0" }

/-- First of two repositories sharing the latest push time. -/
def tieA : Repo :=
  { name := "first", pushed_at := some 50
    stargazers_count := none, forks_count := none, html_url := "uA" }

/-- Second of two repositories sharing the latest push time. -/
def tieB : Repo :=
  { name := "second", pushed_at := some 50
    stargazers_count := none, forks_count := none, html_url := "uB" }

/-- An organization-metadata object with five public and two private
repositories. -/
def orgFive : Org :=
  { public_repos := some 5, total_private_repos := some 2
    followers := some 1, public_members := some 1 }

/-- A file system in which the output directory already exists. -/
def fsWithDir : FS :=
  { dirs := [["repo", "profile"]], files := [] }

/-! ## General lemmas -/

theorem foldl_add_eq_sum (f : Repo → Nat) :
    ∀ (l : List Repo) (n : Nat), l.foldl (fun s r => s + f r) n = n + (l.map f).sum := by
  intro l
  induction l with
  | nil => intro n; simp
  | cons r rs ih => intro n; simp [ih, add_assoc]

/-! ## Claim theorems -/

/-- C6: for every repository list, `totalStars` is the sum of
`stargazers_count` over all returned repositories with a missing count
treated as 0, and `totalForks` likewise for `forks_count`. -/
theorem computeMetrics_totals_are_sums (orgName : String) (org : Org) (repos : List Repo) :
    (computeMetrics orgName org repos).totalStars
        = (repos.map fun r => r.stargazers_count.getD 0).sum ∧
      (computeMetrics orgName org repos).totalForks
        = (repos.map fun r => r.forks_count.getD 0).sum := by
  constructor <;> simp [computeMetrics, foldl_add_eq_sum]

/-- C8: an outbound request carries no `Authorization` header when no token
is present in the environment (including the falsy empty string), and
exactly one `Authorization: Bearer <token>` header when a token is present. -/
theorem request_authorization_header (url t : String) (ht : t ≠ "") :
    (fetchRequest none url).headers.filter (fun kv => kv.1 == "Authorization") = [] ∧
      (fetchRequest (some "") url).headers.filter (fun kv => kv.1 == "Authorization") = [] ∧
      (fetchRequest (some t) url).headers.filter (fun kv => kv.1 == "Authorization")
        = [("Authorization", "Bearer " ++ t)] := by
  refine ⟨rfl, rfl, ?_⟩
  have hne : t.isEmpty = false := by
    cases h : t.isEmpty
    · rfl
    · exact absurd ((String.isEmpty_iff t).mp h) ht
  simp [fetchRequest, HEADERS, hne]

theorem request_authorization_header_witness :
    ("tok" ≠ "") ∧
      ((fetchRequest none "u").headers.filter (fun kv => kv.1 == "Authorization") = [] ∧
        (fetchRequest (some "") "u").headers.filter (fun kv => kv.1 == "Authorization") = [] ∧
        (fetchRequest (some "tok") "u").headers.filter (fun kv => kv.1 == "Authorization")
          = [("Authorization", "Bearer " ++ "tok")]) :=
  ⟨by decide, request_authorization_header "u" "tok" (by decide)⟩

/-- C1: `fetchOrgMetrics` never raises (it is a total function into plain
metrics values here); whenever the organization-metadata request fails, or
any repository-listing page request fails, the returned value has all six
numeric fields equal to 0 and no latest repository, carries the triggering
error message in its `error` field, and a warning-level diagnostic carrying
that message is emitted. -/
theorem fetchOrgMetrics_degrades_on_failure (orgName : String)
    (orgResp : Except String Org) (fetchPage : Nat → Except String RepoPage)
    (fuel : Nat) (m : OrgMetrics) (warns : List String) (e : String)
    (h : fetchOrgMetrics orgName orgResp fetchPage fuel = some (m, warns))
    (hfail : orgResp = .error e ∨
      (∃ org, orgResp = .ok org ∧ listOrgRepos fetchPage fuel = some (.error e))) :
    m.publicRepos = 0 ∧ m.privateRepos = 0 ∧ m.followers = 0 ∧ m.members = 0 ∧
      m.totalStars = 0 ∧ m.totalForks = 0 ∧ m.latestPushedRepository = none ∧
      m.error = some e ∧ warns = [warnMsg e] := by
  rcases hfail with hOrg | ⟨org, hOrg, hPages⟩
  · subst hOrg
    rcases hl : listOrgRepos fetchPage fuel with _ | r
    · rw [fetchOrgMetrics, hl] at h
      cases h
    · rw [fetchOrgMetrics, hl] at h
      simp at h
      rcases h with ⟨hm, hw⟩
      subst hm
      subst hw
      simp [degradedMetrics]
  · subst hOrg
    rw [fetchOrgMetrics, hPages] at h
    simp at h
    rcases h with ⟨hm, hw⟩
    subst hm
    subst hw
    simp [degradedMetrics]

theorem fetchOrgMetrics_degrades_on_failure_witness :
    (fetchOrgMetrics "abstract-data" (Except.error "boom")
        (fun _ => Except.ok (RepoPage.arr [])) 1
      = some (degradedMetrics "abstract-data" "boom", [warnMsg "boom"])) ∧
      ((degradedMetrics "abstract-data" "boom").publicRepos = 0 ∧
        (degradedMetrics "abstract-data" "boom").privateRepos = 0 ∧
        (degradedMetrics "abstract-data" "boom").followers = 0 ∧
        (degradedMetrics "abstract-data" "boom").members = 0 ∧
        (degradedMetrics "abstract-data" "boom").totalStars = 0 ∧
        (degradedMetrics "abstract-data" "boom").totalForks = 0 ∧
        (degradedMetrics "abstract-data" "boom").latestPushedRepository = none ∧
        (degradedMetrics "abstract-data" "boom").error = some "boom" ∧
        [warnMsg "boom"] = [warnMsg "boom"]) :=
  ⟨rfl, fetchOrgMetrics_degrades_on_failure "abstract-data" (Except.error "boom")
    (fun _ => Except.ok (RepoPage.arr [])) 1 _ _ "boom" rfl (Or.inl rfl)⟩

/-- C2: the pagination loop requests pages of fixed size 100 and stops
exactly on a short or empty page: on a mock API with pages of sizes
[100, 100, 37] it issues exactly 3 page requests and aggregates all 237
repositories, and on a mock API with an empty first page it issues exactly
1 page request and yields an empty repository list — for any fuel at least
3 (respectively 1), i.e. independently of the fuel bound of the model. -/
theorem listOrgRepos_pagination_terminates (f : Nat) :
    (listOrgRepos apiPages3 (f + 1 + 1 + 1)
        = some (.ok ((pageRepos 100 ++ pageRepos 100) ++ pageRepos 37, 3)) ∧
      ((pageRepos 100 ++ pageRepos 100) ++ pageRepos 37).length = 237) ∧
      listOrgRepos apiEmptyFirst (f + 1) = some (.ok ([], 1)) := by
  refine ⟨⟨?_, by simp [pageRepos]⟩, ?_⟩
  · simp [listOrgRepos, listOrgReposLoop, apiPages3, pageRepos, perPage]
  · simp [listOrgRepos, listOrgReposLoop, apiEmptyFirst]

/-- C3: on every successful aggregation the written payload's
`metrics.repos` equals `publicRepos + privateRepos` from the org-metadata
response, where `publicRepos` falls back to the length of the fetched
repository list only when `public_repos` is absent (nullish fallback:
`Option.getD`, so an explicit zero does not trigger it, as the second
conjunct shows), and `privateRepos` falls back to 0 when
`total_private_repos` is absent. -/
theorem payload_repos_eq_public_plus_private (now orgName : String) (org : Org)
    (fetchPage : Nat → Except String RepoPage) (fuel nreq : Nat) (repos : List Repo)
    (h : listOrgRepos fetchPage fuel = some (.ok (repos, nreq))) :
    (fetchOrgMetrics orgName (.ok org) fetchPage fuel).map
        (fun mw => metricsField (mainPayload now orgName mw.1) "repos")
      = some (some (.jnum (org.public_repos.getD repos.length
          + org.total_private_repos.getD 0))) ∧
      (org.public_repos = some 0 →
        (fetchOrgMetrics orgName (.ok org) fetchPage fuel).map
            (fun mw => metricsField (mainPayload now orgName mw.1) "repos")
          = some (some (.jnum (org.total_private_repos.getD 0)))) := by
  have hmain : (fetchOrgMetrics orgName (.ok org) fetchPage fuel).map
      (fun mw => metricsField (mainPayload now orgName mw.1) "repos")
      = some (some (.jnum (org.public_repos.getD repos.length
          + org.total_private_repos.getD 0))) := by
    rw [fetchOrgMetrics, h]
    simp [mainPayload, metricsField, lookupKey, computeMetrics, List.lookup]
  refine ⟨hmain, fun h0 => ?_⟩
  rw [hmain, h0]
  simp

theorem payload_repos_eq_public_plus_private_witness :
    (listOrgRepos (fun _ => Except.ok (RepoPage.arr [])) 1 = some (.ok ([], 1))) ∧
      ((fetchOrgMetrics "abstract-data"
            (.ok { public_repos := some 0, total_private_repos := some 4
                   followers := none, public_members := none })
            (fun _ => Except.ok (RepoPage.arr [])) 1).map
          (fun mw => metricsField (mainPayload "t" "abstract-data" mw.1) "repos")
        = some (some (.jnum ((some 0 : Option Nat).getD ([] : List Repo).length
            + (some 4 : Option Nat).getD 0))) ∧
        ((some 0 : Option Nat) = some 0 →
          (fetchOrgMetrics "abstract-data"
              (.ok { public_repos := some 0, total_private_repos := some 4
                     followers := none, public_members := none })
              (fun _ => Except.ok (RepoPage.arr [])) 1).map
            (fun mw => metricsField (mainPayload "t" "abstract-data" mw.1) "repos")
          = some (some (.jnum ((some 4 : Option Nat).getD 0))))) :=
  ⟨rfl, payload_repos_eq_public_plus_private "t" "abstract-data"
    { public_repos := some 0, total_private_repos := some 4
      followers := none, public_members := none }
    (fun _ => Except.ok (RepoPage.arr [])) 1 1 [] rfl⟩

/-- C4 counterexample: with the organization metadata reporting five public
repositories and the first repository-listing page a non-array body, the
aggregator returns the ordinary success object — `publicRepos` is 5 (not 0),
there is no `error` field, and no warning is emitted — contradicting the
claim that a malformed page is surfaced as a warning plus an `error` field
with all numeric fields degraded to zero. -/
theorem malformed_page_not_degraded :
    fetchOrgMetrics "abstract-data" (.ok orgFive) (fun _ => .ok .notArray) 5
        = some (computeMetrics "abstract-data" orgFive [], []) ∧
      (computeMetrics "abstract-data" orgFive []).publicRepos = 5 ∧
      (computeMetrics "abstract-data" orgFive []).error = none ∧
      (5 : Nat) ≠ 0 :=
  ⟨rfl, rfl, rfl, by decide⟩

/-- C4 (amended): a malformed (non-array) repository-listing page body never
halts the process, but it is not treated as an error either: the pagination
loop stops at that page and returns the repositories collected so far, and
the aggregator proceeds on the success path — no warning is emitted and no
`error` field is set (numeric fields come from the collected repositories
and the organization metadata, not degraded to zero). -/
theorem malformed_page_ends_pagination (orgName : String) (org : Org)
    (fetchPage : Nat → Except String RepoPage) (page : Nat) (repos : List Repo)
    (requests fuel : Nat) (h : fetchPage page = .ok .notArray) :
    listOrgReposLoop fetchPage (fuel + 1) page repos requests
        = some (.ok (repos, requests + 1)) ∧
      fetchOrgMetrics orgName (.ok org) (fun _ => .ok .notArray) (fuel + 1)
        = some (computeMetrics orgName org [], []) ∧
      (computeMetrics orgName org []).error = none := by
  refine ⟨?_, ?_, rfl⟩
  · rw [listOrgReposLoop, h]
  · have hl : listOrgRepos (fun _ => (.ok .notArray : Except String RepoPage)) (fuel + 1)
        = some (.ok ([], 1)) := by
      rw [listOrgRepos, listOrgReposLoop]
    rw [fetchOrgMetrics, hl]

theorem malformed_page_ends_pagination_witness :
    ((fun _ : Nat => (.ok .notArray : Except String RepoPage)) 1 = .ok .notArray) ∧
      (listOrgReposLoop (fun _ => .ok .notArray) (2 + 1) 1 [rNoPush] 0
          = some (.ok ([rNoPush], 0 + 1)) ∧
        fetchOrgMetrics "abstract-data" (.ok orgFive) (fun _ => .ok .notArray) (2 + 1)
          = some (computeMetrics "abstract-data" orgFive [], []) ∧
        (computeMetrics "abstract-data" orgFive []).error = none) :=
  ⟨rfl, malformed_page_ends_pagination "abstract-data" orgFive
    (fun _ => .ok .notArray) 1 [rNoPush] 0 2 rfl⟩

/-- C7: a run whose filesystem step does not fault exits with status 0 —
for every outcome of the HTTP calls, so in particular in the
degraded-metrics case — while a filesystem fault reaches the top-level
catch handler, which writes an error diagnostic carrying the fault's
message and exits with status 1. -/
theorem process_exit_codes (now orgName : String) (orgResp : Except String Org)
    (fetchPage : Nat → Except String RepoPage) (fuel : Nat) (fs : FS)
    (dirname : List String) (mw : OrgMetrics × List String) (e : String)
    (h : fetchOrgMetrics orgName orgResp fetchPage fuel = some mw) :
    mainRun now orgName orgResp fetchPage fuel fs dirname none
        = some (writeOut fs dirname (mainPayload now orgName mw.1), 0,
            mw.2 ++ [successLog dirname]) ∧
      mainRun now orgName orgResp fetchPage fuel fs dirname (some e)
        = some (fs, 1, mw.2 ++ [fatalLog e]) := by
  obtain ⟨m, warns⟩ := mw
  constructor <;> rw [mainRun, h]

theorem process_exit_codes_witness :
    (fetchOrgMetrics "abstract-data" (Except.error "boom")
          (fun _ => Except.ok (RepoPage.arr [])) 1
        = some (degradedMetrics "abstract-data" "boom", [warnMsg "boom"])) ∧
      (mainRun "t" "abstract-data" (Except.error "boom")
            (fun _ => Except.ok (RepoPage.arr [])) 1 fsWithDir ["repo", "scripts"] none
          = some (writeOut fsWithDir ["repo", "scripts"]
              (mainPayload "t" "abstract-data"
                (degradedMetrics "abstract-data" "boom", [warnMsg "boom"]).1), 0,
              (degradedMetrics "abstract-data" "boom", [warnMsg "boom"]).2
                ++ [successLog ["repo", "scripts"]]) ∧
        mainRun "t" "abstract-data" (Except.error "boom")
            (fun _ => Except.ok (RepoPage.arr [])) 1 fsWithDir ["repo", "scripts"]
            (some "disk full")
          = some (fsWithDir, 1,
              (degradedMetrics "abstract-data" "boom", [warnMsg "boom"]).2
                ++ [fatalLog "disk full"])) :=
  ⟨rfl, process_exit_codes "t" "abstract-data" (Except.error "boom")
    (fun _ => Except.ok (RepoPage.arr [])) 1 fsWithDir ["repo", "scripts"]
    (degradedMetrics "abstract-data" "boom", [warnMsg "boom"]) "disk full" rfl⟩

/-- C9 counterexample: there is no fixed relative path `p` such that the
written path is the process working directory followed by `p` — the script
resolves `OUTPUT_FILE` against its own directory (`path.resolve(__dirname,
'..', 'profile')`), so with the script installed at `repo/scripts` the
written path is the same for every working directory, which no
cwd-relative fixed path can achieve. -/
theorem output_path_not_cwd_relative :
    ¬ ∃ p : List String, ∀ cwd : List String,
      writtenPath cwd ["repo", "scripts"] = cwd ++ p := by
  rintro ⟨p, hp⟩
  have h1 := hp []
  have h2 := hp ["elsewhere"]
  have h3 : ([] : List String) ++ p = ["elsewhere"] ++ p := h1.symm.trans h2
  simp at h3

/-- C9 (amended): every run writes the pretty-printed payload document to
the fixed path `profile/stats.json` resolved against the script's own
directory — independent of the process working directory — creating the
containing directory when absent (and leaving the directory set unchanged
when it already exists), and the written document has exactly the top-level
keys `generatedAt`, `systems`, `metrics` and `sources`. -/
theorem output_written_at_script_relative_path (fs : FS) (cwd dirname : List String)
    (now orgName : String) (m : OrgMetrics) :
    writtenPath cwd dirname = dirname.dropLast ++ ["profile", "stats.json"] ∧
      (OUTPUT_FILE dirname, mainPayload now orgName m)
        ∈ (writeOut fs dirname (mainPayload now orgName m)).files ∧
      OUTPUT_DIR dirname ∈ (writeOut fs dirname (mainPayload now orgName m)).dirs ∧
      (OUTPUT_DIR dirname ∈ fs.dirs →
        (writeOut fs dirname (mainPayload now orgName m)).dirs = fs.dirs) ∧
      topKeys (mainPayload now orgName m)
        = ["generatedAt", "systems", "metrics", "sources"] := by
  refine ⟨by simp [writtenPath, OUTPUT_FILE, OUTPUT_DIR], ?_, ?_, ?_, rfl⟩
  · by_cases hd : OUTPUT_DIR dirname ∈ fs.dirs <;>
      simp [writeOut, writeFile, hd]
  · by_cases hd : OUTPUT_DIR dirname ∈ fs.dirs <;>
      simp [writeOut, writeFile, hd]
  · intro hd
    simp [writeOut, writeFile, hd]

theorem output_written_at_script_relative_path_witness :
    (OUTPUT_DIR ["repo", "scripts"] ∈ fsWithDir.dirs) ∧
      (writeOut fsWithDir ["repo", "scripts"]
          (mainPayload "t" "abstract-data" (degradedMetrics "abstract-data" "x"))).dirs
        = fsWithDir.dirs :=
  ⟨by simp [fsWithDir, OUTPUT_DIR],
    (output_written_at_script_relative_path fsWithDir [] ["repo", "scripts"]
      "t" "abstract-data" (degradedMetrics "abstract-data" "x")).2.2.2.1
      (by simp [fsWithDir, OUTPUT_DIR])⟩

/-- C10: for every run, successful or degraded, the written payload's
`metrics` object has exactly the seven keys `repos`, `followers`, `members`,
`totalStars`, `totalForks`, `latestCommit`, `latestRepository`, its
`sources` object exactly the two keys `github`, `latestRepository`, and the
key `error` of a degraded aggregation result appears nowhere in the
document. -/
theorem payload_key_set_exact (now orgName : String) (m : OrgMetrics) :
    (lookupKey (mainPayload now orgName m) "metrics").map topKeys
        = some ["repos", "followers", "members", "totalStars", "totalForks",
            "latestCommit", "latestRepository"] ∧
      (lookupKey (mainPayload now orgName m) "sources").map topKeys
        = some ["github", "latestRepository"] ∧
      "error" ∉ allKeys (mainPayload now orgName m) := by
  rcases hm : m.latestPushedRepository with _ | l <;>
    refine ⟨?_, ?_, ?_⟩ <;>
      simp [mainPayload, lookupKey, topKeys, systemsJson,
        allKeys, allKeysArr, allKeysFields, List.lookup, hm]

/-- C5: `latestPushedRepository` filters to repositories with a non-null
`pushed_at` and selects one with the maximum timestamp; a tie is broken in
favour of the first repository encountered with that timestamp (third
conjunct, witnessed on two repositories sharing the latest push time); and
when no repository has a non-null `pushed_at` the selection is `none` and
the written payload's `metrics.latestRepository`, `metrics.latestCommit`
and `sources.latestRepository` are all null. -/
theorem latestPushed_is_max_and_null_case (now orgName : String) (org : Org)
    (repos : List Repo) :
    ((∀ r ∈ repos, r.pushed_at = none) →
        latestPushedRepo repos = none ∧
          metricsField (mainPayload now orgName (computeMetrics orgName org repos))
              "latestCommit" = some .jnull ∧
          metricsField (mainPayload now orgName (computeMetrics orgName org repos))
              "latestRepository" = some .jnull ∧
          sourcesField (mainPayload now orgName (computeMetrics orgName org repos))
              "latestRepository" = some .jnull) ∧
      (∀ r, latestPushedRepo repos = some r →
        r ∈ repos ∧ r.pushed_at.isSome = true ∧
          ∀ s ∈ repos, s.pushed_at.isSome = true → tsOf s ≤ tsOf r) ∧
      latestPushedRepo [tieA, tieB] = some tieA := by
  refine ⟨?_, ?_, by decide⟩
  · intro hall
    have hfil : repos.filter (fun r => r.pushed_at.isSome) = [] := by
      rw [List.filter_eq_nil_iff]
      intro a ha
      simp [hall a ha]
    have hlp : latestPushedRepo repos = none := by
      rw [latestPushedRepo, hfil]
      rfl
    have hnone : (computeMetrics orgName org repos).latestPushedRepository = none := by
      simp [computeMetrics, hlp]
    refine ⟨hlp, ?_, ?_, ?_⟩ <;>
      simp [mainPayload, metricsField, sourcesField, lookupKey, List.lookup, hnone]
  · intro r hr
    rw [latestPushedRepo] at hr
    rcases hs : List.insertionSort pushDesc (repos.filter fun x => x.pushed_at.isSome)
      with _ | ⟨a, t⟩
    · rw [hs] at hr
      cases hr
    · rw [hs] at hr
      have ha : a = r := by
        simpa using hr
      subst ha
      have hmemSort : a ∈ List.insertionSort pushDesc
          (repos.filter fun x => x.pushed_at.isSome) := by
        rw [hs]
        exact List.mem_cons_self a t
      have hmemFil : a ∈ repos.filter fun x => x.pushed_at.isSome :=
        (List.perm_insertionSort pushDesc _).subset hmemSort
      have hmem := List.mem_filter.mp hmemFil
      refine ⟨hmem.1, hmem.2, ?_⟩
      intro s hsMem hsSome
      have hsFil : s ∈ repos.filter fun x => x.pushed_at.isSome :=
        List.mem_filter.mpr ⟨hsMem, hsSome⟩
      have hsSort : s ∈ List.insertionSort pushDesc
          (repos.filter fun x => x.pushed_at.isSome) :=
        (List.perm_insertionSort pushDesc _).mem_iff.mpr hsFil
      rw [hs] at hsSort
      rcases List.mem_cons.mp hsSort with hEq | hTail
      · exact hEq ▸ le_refl _
      · have hsor := List.sorted_insertionSort pushDesc
          (repos.filter fun x => x.pushed_at.isSome)
        rw [hs] at hsor
        exact List.rel_of_sorted_cons hsor s hTail

theorem latestPushed_is_max_and_null_case_witness :
    ((∀ r ∈ [rNoPush], r.pushed_at = none) ∧
        (latestPushedRepo [rNoPush] = none ∧
          metricsField (mainPayload "t" "abstract-data"
              (computeMetrics "abstract-data" orgEmpty [rNoPush]))
            "latestCommit" = some .jnull ∧
          metricsField (mainPayload "t" "abstract-data"
              (computeMetrics "abstract-data" orgEmpty [rNoPush]))
            "latestRepository" = some .jnull ∧
          sourcesField (mainPayload "t" "abstract-data"
              (computeMetrics "abstract-data" orgEmpty [rNoPush]))
            "latestRepository" = some .jnull)) ∧
      (latestPushedRepo [tieA, tieB] = some tieA ∧
        (tieA ∈ [tieA, tieB] ∧ tieA.pushed_at.isSome = true ∧
          ∀ s ∈ [tieA, tieB], s.pushed_at.isSome = true → tsOf s ≤ tsOf tieA)) :=
  ⟨⟨by decide,
      (latestPushed_is_max_and_null_case "t" "abstract-data" orgEmpty [rNoPush]).1
        (by decide)⟩,
    ⟨by decide,
      (latestPushed_is_max_and_null_case "t" "abstract-data" orgEmpty
        [tieA, tieB]).2.1 tieA (by decide)⟩⟩

end GenStats
